import Mathlib

/-!
Shallow embedding, in Lean 4, of the analysis pipeline implemented by the
notebook `notebooks/0-GRFN-demo.ipynb` of the `grfn_pangeo_demo` repository,
together with theorems settling the specification claims about it.

The notebook is glue code over pandas / xarray / rasterio.  Each definition
below embeds one notebook function (or the library behaviour the notebook
relies on), keeping the source's names where Lean allows it:

* `parse_name`, `make_dataframe` — the catalog builder (notebook cell 6);
* `open_rasterio`, `xr_concat`, `create_dataset` — the lazy loader
  (cells 10, 12); `xr.open_rasterio(..., parse_coordinates=False)` returns an
  array carrying dimension sizes but no coordinate labels, and `xr.concat`
  of one labelled array with label-free arrays checks only that the sizes of
  the non-concatenated dimensions agree, taking labels from the labelled
  array;
* `mask_fill`, `water_mask`, `ds_where_mask` — the mask applier (cell 17);
  `rasterio.mask.mask` keeps source values inside the (reprojected) shapes
  and writes the fill value 0 (the default nodata) outside them, and
  `DS.where(DS.mask == False)` replaces values at masked cells with the
  missing marker (NaN, embedded as `none`);
* `nearestIdx`, `sel_nearest` — point extraction
  `ds.sel(x=xcen, y=ycen, method='nearest')` (cell 32);
* `Affine`, `window_transform`, `read_window_shape`, `src_bounds`,
  `src_index`, `get_window`, `save_current_view` — the window extractor
  (cell 22); `src.read(1, window=w)` with the default `boundless=False`
  crops the window to the dataset extent.

Machine floats of the notebook (coordinates, phase values, transforms) are
embedded as rationals; missing data (NaN) as `Option`.
-/

namespace GRFN

/-! ## Definitions -/

/-- A calendar date, as parsed by `reverse_format` with the `%Y%m%d` field
specification in `parse_name`. -/
structure Date where
  y : Nat
  m : Nat
  d : Nat
deriving DecidableEq

/-- Gregorian leap-year test, as used by `datetime`. -/
def isLeap (y : Nat) : Bool :=
  y % 4 == 0 && (y % 100 != 0 || y % 400 == 0)

/-- Number of days of month `m` in year `y` (Gregorian calendar). -/
def daysInMonth (y m : Nat) : Nat :=
  if m == 2 then (if isLeap y then 29 else 28)
  else if m == 4 || m == 6 || m == 9 || m == 11 then 30
  else 31

/-- Calendar validity, as enforced by `datetime` when `reverse_format`
parses a `%Y%m%d` field. -/
def Date.valid (dt : Date) : Bool :=
  1 ≤ dt.m && dt.m ≤ 12 && 1 ≤ dt.d && dt.d ≤ daysInMonth dt.y dt.m

/-- Rata-die count of a date (days since 1970-01-01, the civil-calendar
algorithm), so that subtracting two dates gives the signed day difference
that `pandas` produces for `df.date1 - df.date2`. -/
def Date.toDays (dt : Date) : Int :=
  let y : Int := if dt.m ≤ 2 then (dt.y : Int) - 1 else (dt.y : Int)
  let era : Int := (if 0 ≤ y then y else y - 399) / 400
  let yoe : Int := y - era * 400
  let mp : Int := ((dt.m : Int) + 9) % 12
  let doy : Int := (153 * mp + 2) / 5 + (dt.d : Int) - 1
  let doe : Int := yoe * 365 + yoe / 4 - yoe / 100 + doy
  era * 146097 + doe - 719468

/-- Value of a list of decimal digit characters. -/
def natOfDigits (cs : List Char) : Nat :=
  cs.foldl (fun acc c => acc * 10 + (c.toNat - 48)) 0

/-- Parse exactly eight digit characters as a `%Y%m%d` date, with the
calendar validation `datetime` applies. -/
def parseDate8 (cs : List Char) : Option Date :=
  if cs.length == 8 && cs.all Char.isDigit then
    let dt : Date := ⟨natOfDigits (cs.take 4),
                      natOfDigits ((cs.drop 4).take 2),
                      natOfDigits (cs.drop 6)⟩
    if dt.valid then some dt else none
  else none

/-- Split a character list at every slash (the separators of the object-key
template). -/
def splitSlash (cs : List Char) : List (List Char) :=
  cs.foldr (fun c acc =>
    if c == '/' then [] :: acc
    else (c :: acc.headD []) :: acc.tail) [[]]

/-- Embedding of `parse_name` (cell 6): match an object key against the template
`\x7bproject\x7d/\x7bbucket\x7d/\x7bdate1:%Y%m%d\x7d-\x7bdate2:%Y%m%d\x7d-\x7bformat\x7d`
via `intake.source.utils.reverse_format` and return the two dates.  The
embedding matches the final path component as eight digits, a dash, eight
digits, a dash, and the rest; it fails (`None`) when the key does not match,
as `reverse_format` raises there. -/
def parse_name (gsPath : String) : Option (Date × Date) :=
  let parts := splitSlash gsPath.toList
  if parts.length < 3 then none
  else
    match parts.getLastD [] with
    | c1 :: c2 :: c3 :: c4 :: c5 :: c6 :: c7 :: c8 :: '-' ::
      e1 :: e2 :: e3 :: e4 :: e5 :: e6 :: e7 :: e8 :: '-' :: _rest =>
        match parseDate8 [c1, c2, c3, c4, c5, c6, c7, c8],
              parseDate8 [e1, e2, e3, e4, e5, e6, e7, e8] with
        | some d1, some d2 => some (d1, d2)
        | _, _ => none
    | _ => none

/-- One row of the image catalog dataframe built by `make_dataframe`:
columns `gs`, `url`, `date1`, `date2`, `dt`. -/
structure CatalogRow where
  gs : String
  url : String
  date1 : Date
  date2 : Date
  dt : Int
deriving DecidableEq

/-- Ascending order on object keys, lexicographic by code point: the string
order Python uses when `df.sort_values('gs')` sorts the keys ascending. -/
def keyLE (a b : String) : Prop :=
  a.toList ≤ b.toList

instance : DecidableRel keyLE := fun a b =>
  inferInstanceAs (Decidable (a.toList ≤ b.toList))

instance : IsTrans String keyLE :=
  ⟨fun _ _ _ h1 h2 => le_trans h1 h2⟩

instance : IsTotal String keyLE :=
  ⟨fun a b => le_total a.toList b.toList⟩

/-- Apply a fallible function to every element, failing the whole list on
the first failure (the behaviour of `df.gs.apply` when `parse_name`
raises). -/
def mapSome {α β : Type} (f : α → Option β) : List α → Option (List β)
  | [] => some []
  | a :: l =>
    match f a, mapSome f l with
    | some b, some bs => some (b :: bs)
    | _, _ => none

/-- Embedding of `make_dataframe` (cell 6): sort the object keys ascending
(`df.sort_values('gs')`), derive a public URL by concatenating the fixed
HTTP head onto the key, parse both dates from each key, and set
`dt = date1 - date2` (a signed day difference).  A key that does not match
the template makes the whole build fail, as `df.gs.apply(parse_name)`
raises there. -/
def make_dataframe (images : List String) : Option (List CatalogRow) :=
  mapSome
    (fun gs =>
      (parse_name gs).map fun p =>
        { gs := gs
          url := "http://storage.googleapis.com/" ++ gs
          date1 := p.1
          date2 := p.2
          dt := p.1.toDays - p.2.toDays })
    (images.insertionSort keyLE)

/-- A remote single-band raster as stored in the bucket: its spatial
coordinate arrays (the grid) and its pixel values (a list of rows). -/
structure Image where
  xs : List ℚ
  ys : List ℚ
  data : List (List ℚ)
deriving DecidableEq

/-- The labelled array `xr.open_rasterio(url, parse_coordinates=pc, chunks=...)`
returns: dimension sizes always, coordinate labels only when
`parse_coordinates` is true (with `False` the costly coordinate parse is
skipped and the array carries no `x`/`y` labels). -/
structure DataArr where
  xsize : Nat
  ysize : Nat
  labels : Option (List ℚ × List ℚ)
  data : List (List ℚ)
deriving DecidableEq

/-- Embedding of `xr.open_rasterio` (cells 10 and 12). -/
def open_rasterio (img : Image) (parseCoordinates : Bool) : DataArr :=
  { xsize := img.xs.length
    ysize := img.ys.length
    labels := if parseCoordinates then some (img.xs, img.ys) else none
    data := img.data }

/-- The 3-D dataset built by `create_dataset`: acquisition labels
(`band`), spatial coordinate labels, and one 2-D layer per catalog row. -/
structure Dataset where
  bandCoords : List Nat
  xs : List ℚ
  ys : List ℚ
  layers : List (List (List ℚ))
deriving DecidableEq

/-- Embedding of `xr.concat(datasets, dim='band')` as invoked by `create_dataset`:
exactly one array (the first) carries `x`/`y` coordinate labels and the
rest carry only dimension sizes, so xarray's alignment checks exactly that
every array's `x` and `y` sizes agree with the first's — raising
`ValueError` on conflicting sizes — while coordinate values are never
compared; the labels of the result come from the labelled array. -/
def xr_concat (das : List DataArr) :
    Except String (Option (List ℚ × List ℚ) × List (List (List ℚ))) :=
  match das with
  | [] => Except.error "must supply at least one object to concatenate"
  | d0 :: rest =>
    if rest.all fun d => d.xsize == d0.xsize && d.ysize == d0.ysize then
      Except.ok ((das.filterMap fun d => d.labels).head?,
                 das.map fun d => d.data)
    else
      Except.error "conflicting sizes for dimension"

/-- Embedding of `create_dataset` (cell 12): open the first image with
`parse_coordinates=True`, every later image with `parse_coordinates=False`,
concatenate along a new leading `band` axis, and relabel that axis with the
catalog row indices `np.arange(len(df))`. -/
def create_dataset (df : List Image) : Except String Dataset :=
  match df with
  | [] => Except.error "must supply at least one object to concatenate"
  | img0 :: rest =>
    let da0 := open_rasterio img0 true
    let das := da0 :: rest.map fun img => open_rasterio img false
    match xr_concat das with
    | Except.error e => Except.error e
    | Except.ok out =>
      Except.ok { bandCoords := List.range df.length
                  xs := (out.1.getD ([], [])).1
                  ys := (out.1.getD ([], [])).2
                  layers := out.2 }

/-- Index of the coordinate value nearest to the target along one axis, as
`ds.sel(x=..., y=..., method='nearest')` resolves a scalar label through
the underlying index's nearest-neighbour lookup: it minimises the absolute
distance to the target, never interpolates, and performs no bounds check
(a target outside the coordinate range resolves to the closest edge
cell). -/
def nearestIdx (t : ℚ) : List ℚ → Nat
  | [] => 0
  | [_] => 0
  | c :: c2 :: rest =>
    let j := nearestIdx t (c2 :: rest)
    if |(c2 :: rest).getD j 0 - t| < |c - t| then j + 1 else 0

/-- Embedding of `ds.sel(x=xcen, y=ycen, method='nearest')` (cell 32): pick the nearest
grid cell along each spatial axis and return its value in every band, in
the dataset's band order. -/
def sel_nearest (ds : Dataset) (x y : ℚ) : List ℚ :=
  ds.layers.map fun layer =>
    (layer.getD (nearestIdx y ds.ys) []).getD (nearestIdx x ds.xs) 0

/-- Embedding of `rasterio.mask.mask(src, projected.geometry.values, indexes=1)`
(cell 17): a pixel covered by the shapes (the polygon collection already
reprojected into the raster's coordinate reference system by
`gf.to_crs(src.crs)`) keeps its source value, and every other pixel is
written with the fill value 0 (the default when the source declares no
nodata).  `inside i j` is the rasterised membership of pixel
(row `i`, column `j`) in the reprojected polygons. -/
def mask_fill (inside : Nat → Nat → Bool) (data : List (List ℚ)) :
    List (List ℚ) :=
  (List.range data.length).map fun i =>
    (List.range ((data.getD i []).length)).map fun j =>
      if inside i j then (data.getD i []).getD j 0 else 0

/-- Embedding of `water = (out_image == 0)` (cell 17): the boolean mask layer derived
from the filled image. -/
def water_mask (inside : Nat → Nat → Bool) (data : List (List ℚ)) :
    List (List Bool) :=
  (mask_fill inside data).map fun row => row.map fun v => v == 0

/-- One cell of `DS.where(DS.mask == False)`: where the condition
(mask false) holds the value is kept, elsewhere it becomes the missing
marker NaN (`none`). -/
def where_cell (m : Bool) (v : Option ℚ) : Option ℚ :=
  if m then none else v

/-- Embedding of `DS.where(DS.mask == False)` on one 2-D band. -/
def where_band (mask : List (List Bool))
    (band : List (List (Option ℚ))) : List (List (Option ℚ)) :=
  List.zipWith (fun mrow vrow => List.zipWith where_cell mrow vrow)
    mask band

/-- Embedding of `DS.where(DS.mask == False)` (cell 17) on the whole dataset: the 2-D
mask broadcasts over the band axis. -/
def ds_where_mask (mask : List (List Bool))
    (bands : List (List (List (Option ℚ)))) :
    List (List (List (Option ℚ))) :=
  bands.map (where_band mask)

/-- Count of missing values in a dataset. -/
def n_missing (bands : List (List (List (Option ℚ)))) : Nat :=
  (bands.map fun band =>
    (band.map fun row => (row.filter fun v => v.isNone).length).sum).sum

/-- A 2-D affine geotransform (rasterio's `affine.Affine`):
world x = a*col + b*row + c, world y = d*col + e*row + f. -/
structure Affine where
  a : ℚ
  b : ℚ
  c : ℚ
  d : ℚ
  e : ℚ
  f : ℚ
deriving DecidableEq

/-- Determinant of the linear part of the transform. -/
def Affine.det (t : Affine) : ℚ :=
  t.a * t.e - t.b * t.d

/-- Apply the transform to fractional pixel coordinates (col, row). -/
def Affine.apply (t : Affine) (col row : ℚ) : ℚ × ℚ :=
  (t.a * col + t.b * row + t.c, t.d * col + t.e * row + t.f)

/-- Embedding of `rasterio.windows.Window(col_off, row_off, width, height)`. -/
structure Window where
  colOff : Int
  rowOff : Int
  width : Int
  height : Int
deriving DecidableEq

/-- The georeferencing of an opened source raster: pixel grid size and
geotransform. -/
structure SrcRaster where
  width : Nat
  height : Nat
  transform : Affine
deriving DecidableEq

/-- Embedding of `src.bounds`, i.e. (left, bottom, right, top): the transform applied
at the pixel corners (0, 0) and (width, height). -/
def src_bounds (s : SrcRaster) : ℚ × ℚ × ℚ × ℚ :=
  let tl := s.transform.apply 0 0
  let br := s.transform.apply (s.width : ℚ) (s.height : ℚ)
  (tl.1, br.2, br.1, tl.2)

/-- Embedding of `src.index(x, y)`, the (row, col) of the pixel containing a world
point: the inverse transform followed by `math.floor`, with no bounds
check (points outside the raster give negative or too-large indices). -/
def src_index (s : SrcRaster) (x y : ℚ) : Int × Int :=
  let t := s.transform
  let col := (t.e * (x - t.c) - t.b * (y - t.f)) / t.det
  let row := (t.a * (y - t.f) - t.d * (x - t.c)) / t.det
  (⌊row⌋, ⌊col⌋)

/-- Embedding of `get_window(img, src)` (cell 22): when the viewer's range stream has
never been set (`limits.x_range == None`: the user has not panned or
zoomed) the bounds fall back to `src.bounds`; otherwise they come from the
stream's current x/y ranges.  The window runs from the index of
(left, top) to the index of (right, bottom). -/
def get_window (xRange yRange : Option (ℚ × ℚ)) (src : SrcRaster) :
    Window :=
  let bounds :=
    match xRange with
    | none => src_bounds src
    | some xr =>
      (xr.1, (yRange.getD (0, 0)).1, xr.2, (yRange.getD (0, 0)).2)
  let ul := src_index src bounds.1 bounds.2.2.2
  let lr := src_index src bounds.2.2.1 bounds.2.1
  Window.mk ul.2 ul.1 (lr.2 - ul.2) (lr.1 - ul.1)

/-- Shape (rows, cols) of the array returned by `src.read(1, window=w)`
with the default `boundless=False`: the window is intersected with the
dataset extent, so out-of-bounds parts are silently cropped rather than
raising a boundary error. -/
def read_window_shape (s : SrcRaster) (w : Window) : Nat × Nat :=
  let r0 := max w.rowOff 0
  let r1 := min (w.rowOff + w.height) (s.height : Int)
  let c0 := max w.colOff 0
  let c1 := min (w.colOff + w.width) (s.width : Int)
  ((r1 - r0).toNat, (c1 - c0).toNat)

/-- Embedding of `src.window_transform(window)`: the source transform with its origin
translated to the window's upper-left corner; the per-pixel scale and
shear terms are unchanged. -/
def window_transform (t : Affine) (w : Window) : Affine :=
  { t with
    c := t.c + t.a * (w.colOff : ℚ) + t.b * (w.rowOff : ℚ)
    f := t.f + t.d * (w.colOff : ℚ) + t.e * (w.rowOff : ℚ) }

/-- Embedding of `os.path.basename`: the part of the path after the final slash. -/
def basename (s : String) : String :=
  String.mk ((splitSlash s.toList).getLastD [])

/-- The raster profile dictionary (`src.profile`): the fields the notebook
updates, plus the georeferencing fields it must preserve. -/
structure Profile where
  driver : String
  dtype : String
  nodata : Option ℚ
  width : Nat
  height : Nat
  count : Nat
  crs : String
  transform : Affine
  blockxsize : Nat
  blockysize : Nat
deriving DecidableEq

/-- Embedding of `save_current_view` (cell 22), reduced to its observable file effect:
copy the source profile, read the current window (shape cropped to the
extent by `src.read`), update exactly the fields dtype, height, width,
blockxsize, blockysize and transform, and write under the local name
`subset-` + basename of the source. -/
def save_current_view (srcName : String) (p : Profile) (s : SrcRaster)
    (w : Window) : String × Profile :=
  let shape := read_window_shape s w
  ("subset-" ++ basename srcName,
   { p with
     dtype := "float32"
     height := shape.1
     width := shape.2
     blockxsize := 256
     blockysize := 256
     transform := window_transform p.transform w })

/-! ## Theorems -/

theorem mapSome_mem_exists {α β : Type} (f : α → Option β) :
    ∀ (l : List α) (out : List β),
      mapSome f l = some out → ∀ b ∈ out, ∃ a ∈ l, f a = some b := by
  intro l
  induction l with
  | nil =>
    intro out h b hb
    simp only [mapSome, Option.some.injEq] at h
    subst h
    simp at hb
  | cons a l ih =>
    intro out h b hb
    cases hfa : f a with
    | none => simp [mapSome, hfa] at h
    | some b0 =>
      cases hml : mapSome f l with
      | none => simp [mapSome, hfa, hml] at h
      | some bs =>
        simp only [mapSome, hfa, hml, Option.some.injEq] at h
        subst h
        rcases List.mem_cons.mp hb with hb | hb
        · exact ⟨a, List.mem_cons_self a l, hb ▸ hfa⟩
        · obtain ⟨a', ha', hfa'⟩ := ih bs hml b hb
          exact ⟨a', List.mem_cons_of_mem a ha', hfa'⟩

theorem mapSome_map_eq_self {α β : Type} (g : β → α) (f : α → Option β) :
    ∀ (l : List α) (out : List β),
      mapSome f l = some out → (∀ a b, f a = some b → g b = a) →
      out.map g = l := by
  intro l
  induction l with
  | nil =>
    intro out h _
    simp only [mapSome, Option.some.injEq] at h
    subst h
    rfl
  | cons a l ih =>
    intro out h hg
    cases hfa : f a with
    | none => simp [mapSome, hfa] at h
    | some b0 =>
      cases hml : mapSome f l with
      | none => simp [mapSome, hfa, hml] at h
      | some bs =>
        simp only [mapSome, hfa, hml, Option.some.injEq] at h
        subst h
        simp only [List.map_cons]
        exact congrArg₂ (· :: ·) (hg a b0 hfa) (ih bs hml hg)

/-- C5: for every catalog produced by `make_dataframe`, every row satisfies
`dt = date1 - date2` (as signed day counts), and the rows are sorted in
ascending order by the remote path `gs`. -/
theorem catalog_rows_delta_and_sorted (images : List String)
    (rows : List CatalogRow) (h : make_dataframe images = some rows) :
    (∀ r ∈ rows, r.dt = r.date1.toDays - r.date2.toDays) ∧
    List.Sorted keyLE (rows.map CatalogRow.gs) := by
  unfold make_dataframe at h
  constructor
  · intro r hr
    obtain ⟨gs, _, hg⟩ := mapSome_mem_exists _ _ _ h r hr
    cases hp : parse_name gs with
    | none => rw [hp] at hg; simp at hg
    | some p =>
      rw [hp] at hg
      simp only [Option.map_some', Option.some.injEq] at hg
      subst hg
      rfl
  · have hmap : rows.map CatalogRow.gs = images.insertionSort keyLE := by
      refine mapSome_map_eq_self CatalogRow.gs _ _ _ h ?_
      intro gs r hg
      cases hp : parse_name gs with
      | none => rw [hp] at hg; simp at hg
      | some p =>
        rw [hp] at hg
        simp only [Option.map_some', Option.some.injEq] at hg
        subst hg
        rfl
    rw [hmap]
    exact List.sorted_insertionSort keyLE images

/-- Witness for C5: the theorem applied to the concrete two-key catalog of
the spec's scenario. -/
theorem catalog_rows_delta_and_sorted_witness :
    (∀ r ∈ ([⟨"p/b/20200101-20200115-unw.tif",
               "http://storage.googleapis.com/p/b/20200101-20200115-unw.tif",
               ⟨2020, 1, 1⟩, ⟨2020, 1, 15⟩, -14⟩,
              ⟨"p/b/20200201-20200215-unw.tif",
               "http://storage.googleapis.com/p/b/20200201-20200215-unw.tif",
               ⟨2020, 2, 1⟩, ⟨2020, 2, 15⟩, -14⟩] : List CatalogRow),
        r.dt = r.date1.toDays - r.date2.toDays) ∧
    List.Sorted keyLE
      (([⟨"p/b/20200101-20200115-unw.tif",
          "http://storage.googleapis.com/p/b/20200101-20200115-unw.tif",
          ⟨2020, 1, 1⟩, ⟨2020, 1, 15⟩, -14⟩,
         ⟨"p/b/20200201-20200215-unw.tif",
          "http://storage.googleapis.com/p/b/20200201-20200215-unw.tif",
          ⟨2020, 2, 1⟩, ⟨2020, 2, 15⟩, -14⟩] : List CatalogRow).map
        CatalogRow.gs) :=
  catalog_rows_delta_and_sorted
    ["p/b/20200101-20200115-unw.tif", "p/b/20200201-20200215-unw.tif"] _
    (by decide)

/-- C9 counterexample: on the spec's two scenario keys, the first catalog
row has `dt = date1 - date2 = -14` days (2020-01-01 minus 2020-01-15), not
`+14` days as the claim states. -/
theorem scenario_delta_counterexample :
    (make_dataframe
        ["p/b/20200101-20200115-unw.tif",
         "p/b/20200201-20200215-unw.tif"]).map
      (fun rows => rows.map CatalogRow.dt) = some [-14, -14] ∧
    ((-14 : Int) = 14 → False) := by
  exact ⟨by decide, by decide⟩

/-- C9 amended: the scenario catalog has exactly two rows, with
`date1 = 2020-01-01` and `2020-02-01` respectively, rows sorted by key, and
`date_delta = -14` days (not `+14`) for the first row. -/
theorem scenario_catalog :
    ∃ rows,
      make_dataframe
          ["p/b/20200101-20200115-unw.tif",
           "p/b/20200201-20200215-unw.tif"] = some rows ∧
      rows.length = 2 ∧
      rows.map CatalogRow.date1 = [⟨2020, 1, 1⟩, ⟨2020, 2, 1⟩] ∧
      List.Sorted keyLE (rows.map CatalogRow.gs) ∧
      (rows.map CatalogRow.dt).headD 0 = -14 := by
  refine ⟨[⟨"p/b/20200101-20200115-unw.tif",
            "http://storage.googleapis.com/p/b/20200101-20200115-unw.tif",
            ⟨2020, 1, 1⟩, ⟨2020, 1, 15⟩, -14⟩,
           ⟨"p/b/20200201-20200215-unw.tif",
            "http://storage.googleapis.com/p/b/20200201-20200215-unw.tif",
            ⟨2020, 2, 1⟩, ⟨2020, 2, 15⟩, -14⟩], ?_, ?_, ?_, ?_, ?_⟩ <;>
    decide

/-- C1 counterexample: two images whose spatial grids disagree (different
`x` coordinate arrays) but whose shapes agree are concatenated without any
error — `create_dataset` succeeds and silently attaches the first image's
coordinates to the second image's pixels. -/
theorem grid_mismatch_not_fatal :
    (Image.mk [0, 1] [0] [[5, 6]]).xs ≠ (Image.mk [100, 101] [50] [[7, 8]]).xs ∧
    create_dataset [Image.mk [0, 1] [0] [[5, 6]],
                    Image.mk [100, 101] [50] [[7, 8]]] =
      Except.ok (Dataset.mk [0, 1] [0, 1] [0] [[[5, 6]], [[7, 8]]]) := by
  constructor
  · decide
  · rfl

/-- Auxiliary lemma: `List.all` over a mapped list. -/
theorem list_all_map {α β : Type} (f : α → β) (p : β → Bool) :
    ∀ l : List α, (l.map f).all p = l.all fun a => p (f a)
  | [] => rfl
  | a :: l => by
    simp only [List.map_cons, List.all_cons, list_all_map f p l]

/-- Unfolding lemma: on a non-empty catalog, `create_dataset` succeeds iff
every later image's spatial sizes agree with the first image's, and the
result carries the first image's coordinates and all images' pixel layers
in catalog order. -/
theorem create_dataset_cons (img0 : Image) (rest : List Image) :
    create_dataset (img0 :: rest) =
      if rest.all (fun img => img.xs.length == img0.xs.length &&
                              img.ys.length == img0.ys.length) then
        Except.ok (Dataset.mk (List.range (rest.length + 1)) img0.xs img0.ys
          (img0.data :: rest.map Image.data))
      else
        Except.error "conflicting sizes for dimension" := by
  have hcond : ((rest.map fun img => open_rasterio img false).all
      fun d => d.xsize == (open_rasterio img0 true).xsize &&
               d.ysize == (open_rasterio img0 true).ysize)
      = rest.all (fun img => img.xs.length == img0.xs.length &&
                             img.ys.length == img0.ys.length) := by
    rw [list_all_map]
    rfl
  by_cases hall : (rest.all fun img => img.xs.length == img0.xs.length &&
      img.ys.length == img0.ys.length) = true
  · have h2 := hcond.trans hall
    simp only [create_dataset, xr_concat, h2, if_true, hall]
    simp only [List.map_cons, List.map_map]
    rfl
  · have h2 := hcond.trans (Bool.not_eq_true _ |>.mp hall)
    simp only [create_dataset, xr_concat, h2, Bool.false_eq_true, if_false,
      hall]

/-- C1 amended: dataset construction fails explicitly exactly when some
later image's spatial shape disagrees with the first image's shape;
coordinate grids are never compared (coordinate parsing is skipped after
the first image), so same-shape images with disagreeing grids are silently
concatenated. -/
theorem create_dataset_error_iff_shape_mismatch (img0 : Image)
    (rest : List Image) :
    (∃ e, create_dataset (img0 :: rest) = Except.error e) ↔
    ∃ img ∈ rest,
      img.xs.length ≠ img0.xs.length ∨ img.ys.length ≠ img0.ys.length := by
  rw [create_dataset_cons]
  by_cases hall : (rest.all fun img => img.xs.length == img0.xs.length &&
      img.ys.length == img0.ys.length) = true
  · rw [if_pos hall]
    simp only [List.all_eq_true, Bool.and_eq_true, beq_iff_eq] at hall
    constructor
    · rintro ⟨e, he⟩
      exact absurd he (by simp)
    · rintro ⟨img, hm, hne⟩
      rcases hne with hne | hne
      · exact absurd (hall img hm).1 hne
      · exact absurd (hall img hm).2 hne
  · rw [if_neg hall]
    have hfalse := Bool.not_eq_true _ |>.mp hall
    rw [List.all_eq_false] at hfalse
    obtain ⟨img, hm, hne⟩ := hfalse
    simp only [Bool.and_eq_true, beq_iff_eq, not_and] at hne
    constructor
    · intro _
      refine ⟨img, hm, ?_⟩
      by_cases h1 : img.xs.length = img0.xs.length
      · exact Or.inr (hne h1)
      · exact Or.inl h1
    · intro _
      exact ⟨"conflicting sizes for dimension", rfl⟩

/-- Witness for C1's amended theorem: a second image with one extra column
makes `create_dataset` fail. -/
theorem create_dataset_error_iff_shape_mismatch_witness :
    (∃ e, create_dataset (Image.mk [0, 1] [0] [[5, 6]] ::
        [Image.mk [0, 1, 2] [0] [[7, 8, 9]]]) = Except.error e) ↔
    ∃ img ∈ [Image.mk [0, 1, 2] [0] [[7, 8, 9]]],
      img.xs.length ≠ (Image.mk [0, 1] [0] [[5, 6]]).xs.length ∨
      img.ys.length ≠ (Image.mk [0, 1] [0] [[5, 6]]).ys.length :=
  create_dataset_error_iff_shape_mismatch (Image.mk [0, 1] [0] [[5, 6]])
    [Image.mk [0, 1, 2] [0] [[7, 8, 9]]]

/-- C6: concatenating `N` per-image arrays with identical grids yields a
dataset whose new leading acquisition axis has length `N` and is labelled
by the catalog row indices `0 .. N-1`, and whose spatial coordinates (hence
spatial shape) equal those of any single input image. -/
theorem create_dataset_identical_grids (df : List Image) (img0 : Image)
    (h0 : df.head? = some img0)
    (hgrid : ∀ img ∈ df, img.xs = img0.xs ∧ img.ys = img0.ys) :
    ∃ ds, create_dataset df = Except.ok ds ∧
      ds.layers.length = df.length ∧
      ds.bandCoords = List.range df.length ∧
      ds.xs = img0.xs ∧ ds.ys = img0.ys ∧
      ∀ img ∈ df, ds.xs.length = img.xs.length ∧
        ds.ys.length = img.ys.length := by
  rcases df with _ | ⟨i0, rest⟩
  · simp at h0
  · have h0e : i0 = img0 := by simpa using h0
    subst h0e
    have hall : rest.all (fun img => img.xs.length == i0.xs.length &&
        img.ys.length == i0.ys.length) = true := by
      simp only [List.all_eq_true, Bool.and_eq_true, beq_iff_eq]
      intro img hm
      obtain ⟨hx, hy⟩ := hgrid img (List.mem_cons_of_mem _ hm)
      exact ⟨by rw [hx], by rw [hy]⟩
    have heq : create_dataset (i0 :: rest) =
        Except.ok (Dataset.mk (List.range (rest.length + 1)) i0.xs i0.ys
          (i0.data :: rest.map Image.data)) := by
      rw [create_dataset_cons, if_pos hall]
    refine ⟨_, heq, ?_, rfl, rfl, rfl, ?_⟩
    · simp
    · intro img hm
      obtain ⟨hx, hy⟩ := hgrid img hm
      exact ⟨by rw [hx], by rw [hy]⟩

/-- Witness for C6: two concrete images sharing one grid. -/
theorem create_dataset_identical_grids_witness :
    ∃ ds, create_dataset [Image.mk [0, 1] [0] [[5, 6]],
                          Image.mk [0, 1] [0] [[7, 8]]] = Except.ok ds ∧
      ds.layers.length = 2 ∧
      ds.bandCoords = List.range 2 ∧
      ds.xs = (Image.mk [0, 1] [0] [[5, 6]]).xs ∧
      ds.ys = (Image.mk [0, 1] [0] [[5, 6]]).ys ∧
      ∀ img ∈ [Image.mk [0, 1] [0] [[5, 6]], Image.mk [0, 1] [0] [[7, 8]]],
        ds.xs.length = img.xs.length ∧ ds.ys.length = img.ys.length :=
  create_dataset_identical_grids
    [Image.mk [0, 1] [0] [[5, 6]], Image.mk [0, 1] [0] [[7, 8]]]
    (Image.mk [0, 1] [0] [[5, 6]]) rfl (by decide)

theorem nearestIdx_lt_length (t : ℚ) :
    ∀ cs : List ℚ, cs ≠ [] → nearestIdx t cs < cs.length
  | [], h => absurd rfl h
  | [_], _ => Nat.zero_lt_one
  | c :: c2 :: rest, _ => by
    have ih := nearestIdx_lt_length t (c2 :: rest) (by simp)
    by_cases hlt :
        |(c2 :: rest).getD (nearestIdx t (c2 :: rest)) 0 - t| < |c - t|
    · simp only [nearestIdx, hlt, if_true]
      simpa using Nat.succ_lt_succ ih
    · simp only [nearestIdx, hlt, if_false]
      simp

theorem nearestIdx_min (t : ℚ) :
    ∀ (cs : List ℚ) (i : Nat), i < cs.length →
      |cs.getD (nearestIdx t cs) 0 - t| ≤ |cs.getD i 0 - t|
  | [], i, hi => by simp at hi
  | [c], i, hi => by
    have hi0 : i = 0 := by simpa using Nat.lt_one_iff.mp (by simpa using hi)
    subst hi0
    exact le_refl _
  | c :: c2 :: rest, i, hi => by
    have ih := nearestIdx_min t (c2 :: rest)
    by_cases hlt :
        |(c2 :: rest).getD (nearestIdx t (c2 :: rest)) 0 - t| < |c - t|
    · simp only [nearestIdx, hlt, if_true]
      cases i with
      | zero => simpa using le_of_lt hlt
      | succ i =>
        simp only [List.getD_cons_succ]
        exact ih i (by simpa using Nat.lt_of_succ_lt_succ hi)
    · simp only [nearestIdx, hlt, if_false]
      cases i with
      | zero => simp
      | succ i =>
        simp only [List.getD_cons_zero, List.getD_cons_succ]
        exact le_trans (not_lt.mp hlt)
          (ih i (by simpa using Nat.lt_of_succ_lt_succ hi))

/-- Auxiliary lemma: `List.getD` through a `List.map`, inside the bound. -/
theorem getD_map_of_lt {α β : Type} (f : α → β) (da : α) (db : β)
    (l : List α) (k : Nat) (h : k < l.length) :
    (l.map f).getD k db = f (l.getD k da) := by
  rw [List.getD_eq_getElem _ _ (by simpa using h), List.getD_eq_getElem _ _ h]
  simp

/-- C2: for every target coordinate, point extraction returns exactly one
value per acquisition (one per catalog row, in catalog order: the `k`-th
returned value is read from the `k`-th image's pixels), taken from a single
grid cell — the cell whose `x` and `y` coordinates minimise the absolute
distance to the target along each axis — with no interpolation. -/
theorem sel_nearest_per_acquisition (df : List Image) (ds : Dataset)
    (x y : ℚ) (h : create_dataset df = Except.ok ds)
    (hx : ds.xs ≠ []) (hy : ds.ys ≠ []) :
    (sel_nearest ds x y).length = df.length ∧
    (∀ k, k < df.length →
      (sel_nearest ds x y).getD k 0 =
        (((df.getD k (Image.mk [] [] [])).data.getD
            (nearestIdx y ds.ys) []).getD (nearestIdx x ds.xs) 0)) ∧
    nearestIdx x ds.xs < ds.xs.length ∧
    (∀ i, i < ds.xs.length →
      |ds.xs.getD (nearestIdx x ds.xs) 0 - x| ≤ |ds.xs.getD i 0 - x|) ∧
    nearestIdx y ds.ys < ds.ys.length ∧
    (∀ i, i < ds.ys.length →
      |ds.ys.getD (nearestIdx y ds.ys) 0 - y| ≤ |ds.ys.getD i 0 - y|) := by
  have hlayers : ds.layers = df.map Image.data := by
    rcases df with _ | ⟨img0, rest⟩
    · exact absurd h (by simp [create_dataset])
    · rw [create_dataset_cons] at h
      by_cases hall : (rest.all fun img =>
          img.xs.length == img0.xs.length &&
          img.ys.length == img0.ys.length) = true
      · rw [if_pos hall] at h
        obtain rfl : ds = _ := (Except.ok.injEq _ _).mp h.symm
        rfl
      · rw [if_neg hall] at h
        exact absurd h (by simp)
  refine ⟨?_, ?_, nearestIdx_lt_length x ds.xs hx, nearestIdx_min x ds.xs,
    nearestIdx_lt_length y ds.ys hy, nearestIdx_min y ds.ys⟩
  · simp [sel_nearest, hlayers]
  · intro k hk
    unfold sel_nearest
    rw [hlayers, List.map_map]
    exact getD_map_of_lt _ (Image.mk [] [] []) 0 df k hk

/-- Witness for C2: a one-image dataset probed at a concrete target. -/
theorem sel_nearest_per_acquisition_witness :
    (sel_nearest (Dataset.mk [0] [0, 1] [0] [[[5, 6]]]) (2/5) 0).length =
      [Image.mk [0, 1] [0] [[5, 6]]].length ∧
    (∀ k, k < [Image.mk [0, 1] [0] [[5, 6]]].length →
      (sel_nearest (Dataset.mk [0] [0, 1] [0] [[[5, 6]]]) (2/5) 0).getD k 0 =
        ((([Image.mk [0, 1] [0] [[5, 6]]].getD k (Image.mk [] [] [])).data.getD
            (nearestIdx 0 (Dataset.mk [0] [0, 1] [0] [[[5, 6]]]).ys) []).getD
          (nearestIdx (2/5) (Dataset.mk [0] [0, 1] [0] [[[5, 6]]]).xs) 0)) ∧
    nearestIdx (2/5) (Dataset.mk [0] [0, 1] [0] [[[5, 6]]]).xs <
      (Dataset.mk [0] [0, 1] [0] [[[5, 6]]]).xs.length ∧
    (∀ i, i < (Dataset.mk [0] [0, 1] [0] [[[5, 6]]]).xs.length →
      |(Dataset.mk [0] [0, 1] [0] [[[5, 6]]]).xs.getD
          (nearestIdx (2/5) (Dataset.mk [0] [0, 1] [0] [[[5, 6]]]).xs) 0 -
        2/5| ≤
      |(Dataset.mk [0] [0, 1] [0] [[[5, 6]]]).xs.getD i 0 - 2/5|) ∧
    nearestIdx 0 (Dataset.mk [0] [0, 1] [0] [[[5, 6]]]).ys <
      (Dataset.mk [0] [0, 1] [0] [[[5, 6]]]).ys.length ∧
    (∀ i, i < (Dataset.mk [0] [0, 1] [0] [[[5, 6]]]).ys.length →
      |(Dataset.mk [0] [0, 1] [0] [[[5, 6]]]).ys.getD
          (nearestIdx 0 (Dataset.mk [0] [0, 1] [0] [[[5, 6]]]).ys) 0 - 0| ≤
      |(Dataset.mk [0] [0, 1] [0] [[[5, 6]]]).ys.getD i 0 - 0|) :=
  sel_nearest_per_acquisition [Image.mk [0, 1] [0] [[5, 6]]]
    (Dataset.mk [0] [0, 1] [0] [[[5, 6]]]) (2/5) 0 (by rfl)
    (by decide) (by decide)

/-- C3 counterexample: a pixel lying inside the region-of-interest polygon
whose raster value is 0 is flagged true by the derived mask, although the
claim requires the mask to be false for every pixel inside the polygon. -/
theorem inside_zero_pixel_flagged :
    (fun _ _ => true : Nat → Nat → Bool) 0 0 = true ∧
    water_mask (fun _ _ => true) [[0]] = [[true]] := by
  exact ⟨rfl, by decide⟩

/-- C3 amended: the derived mask layer is a boolean 2-D array aligned to
the raster's spatial grid (same shape); it is true for every pixel outside
the reprojected region-of-interest polygon, but it is also true for an
inside pixel whose source value equals the fill value 0 — cell by cell it
equals (not inside) OR (value = 0). -/
theorem water_mask_cells (inside : Nat → Nat → Bool)
    (data : List (List ℚ)) (i j : Nat) (hi : i < data.length)
    (hj : j < (data.getD i []).length) :
    (water_mask inside data).length = data.length ∧
    ((water_mask inside data).getD i []).length =
      (data.getD i []).length ∧
    ((water_mask inside data).getD i []).getD j false =
      (!(inside i j) || ((data.getD i []).getD j 0 == 0)) := by
  have hrow : (water_mask inside data).getD i [] =
      (List.range ((data.getD i []).length)).map fun j =>
        (if inside i j then (data.getD i []).getD j 0 else 0) == 0 := by
    unfold water_mask mask_fill
    rw [List.map_map]
    rw [getD_map_of_lt _ 0 [] _ i (by simpa using hi)]
    rw [show (List.range data.length).getD i 0 = i from by
      rw [List.getD_eq_getElem _ _ (by simpa using hi)]
      simp]
    simp [Function.comp, List.map_map]
  refine ⟨?_, ?_, ?_⟩
  · simp [water_mask, mask_fill]
  · rw [hrow]
    simp
  · rw [hrow]
    rw [getD_map_of_lt _ 0 false _ j (by simpa using hj)]
    rw [show (List.range ((data.getD i []).length)).getD j 0 = j from by
      rw [List.getD_eq_getElem _ _ (by simpa using hj)]
      simp]
    by_cases hin : inside i j
    · simp [hin]
    · simp [hin]

/-- Witness for C3's amended theorem: a 1-by-2 raster with a polygon
covering only column 0. -/
theorem water_mask_cells_witness :
    (water_mask (fun _ j => j == 0) [[3, 7]]).length =
      ([[3, 7]] : List (List ℚ)).length ∧
    ((water_mask (fun _ j => j == 0) [[3, 7]]).getD 0 []).length =
      (([[3, 7]] : List (List ℚ)).getD 0 []).length ∧
    ((water_mask (fun _ j => j == 0) [[3, 7]]).getD 0 []).getD 1 false =
      (!((fun _ j => j == 0 : Nat → Nat → Bool) 0 1) ||
        ((([[3, 7]] : List (List ℚ)).getD 0 []).getD 1 0 == 0)) :=
  water_mask_cells (fun _ j => j == 0) [[3, 7]] 0 1 (by decide) (by decide)

/-- Idempotence of `where_cell` in its value argument. -/
theorem where_cell_idem (m : Bool) (v : Option ℚ) :
    where_cell m (where_cell m v) = where_cell m v := by
  by_cases hm : m <;> simp [where_cell, hm]

/-- Row-level idempotence of the mask application. -/
theorem where_row_idem :
    ∀ (mrow : List Bool) (vrow : List (Option ℚ)),
      List.zipWith where_cell mrow (List.zipWith where_cell mrow vrow) =
        List.zipWith where_cell mrow vrow
  | [], _ => rfl
  | _ :: _, [] => rfl
  | m :: mrow, v :: vrow => by
    simp only [List.zipWith_cons_cons, where_row_idem mrow vrow,
      where_cell_idem]

/-- Band-level idempotence of the mask application. -/
theorem where_band_idem :
    ∀ (mask : List (List Bool)) (band : List (List (Option ℚ))),
      where_band mask (where_band mask band) = where_band mask band
  | [], _ => rfl
  | _ :: _, [] => rfl
  | mrow :: mask, vrow :: band => by
    simp only [where_band, List.zipWith_cons_cons] at *
    rw [where_row_idem mrow vrow]
    have := where_band_idem mask band
    simp only [where_band] at this
    rw [this]

/-- C4: applying the boolean mask is deterministic (a pure function of the
mask and the dataset) and idempotent — re-applying the same mask to the
already-masked dataset changes nothing, in particular not the count of
missing values. -/
theorem ds_where_mask_idempotent (mask : List (List Bool))
    (bands : List (List (List (Option ℚ)))) :
    ds_where_mask mask (ds_where_mask mask bands) =
      ds_where_mask mask bands ∧
    n_missing (ds_where_mask mask (ds_where_mask mask bands)) =
      n_missing (ds_where_mask mask bands) := by
  have h : ds_where_mask mask (ds_where_mask mask bands) =
      ds_where_mask mask bands := by
    unfold ds_where_mask
    rw [List.map_map]
    exact List.map_congr_left fun band _ => where_band_idem mask band
  exact ⟨h, congrArg n_missing h⟩

/-- C7: for an in-bounds window, the written raster is named
`subset-` + the source basename, and its profile updates exactly the
fields dtype (float32), height and width (the window's), block size
(256 by 256) and transform (origin moved to the window's upper-left
corner), while the coordinate reference system, driver, band count, nodata
and the per-pixel scale/shear terms of the transform are preserved
unchanged. -/
theorem save_current_view_effect (srcName : String) (p : Profile)
    (s : SrcRaster) (w : Window)
    (hr0 : 0 ≤ w.rowOff) (hr1 : w.rowOff + w.height ≤ (s.height : Int))
    (hc0 : 0 ≤ w.colOff) (hc1 : w.colOff + w.width ≤ (s.width : Int)) :
    save_current_view srcName p s w =
      ("subset-" ++ basename srcName,
       { p with
         dtype := "float32"
         height := w.height.toNat
         width := w.width.toNat
         blockxsize := 256
         blockysize := 256
         transform := window_transform p.transform w }) ∧
    (save_current_view srcName p s w).2.crs = p.crs ∧
    (save_current_view srcName p s w).2.driver = p.driver ∧
    (save_current_view srcName p s w).2.count = p.count ∧
    (save_current_view srcName p s w).2.nodata = p.nodata ∧
    (save_current_view srcName p s w).2.transform.a = p.transform.a ∧
    (save_current_view srcName p s w).2.transform.b = p.transform.b ∧
    (save_current_view srcName p s w).2.transform.d = p.transform.d ∧
    (save_current_view srcName p s w).2.transform.e = p.transform.e ∧
    ((save_current_view srcName p s w).2.transform.apply 0 0 =
      p.transform.apply (w.colOff : ℚ) (w.rowOff : ℚ)) := by
  have hshape : read_window_shape s w = (w.height.toNat, w.width.toNat) := by
    unfold read_window_shape
    rw [Prod.mk.injEq]
    constructor <;> omega
  refine ⟨?_, rfl, rfl, rfl, rfl, rfl, rfl, rfl, rfl, ?_⟩
  · unfold save_current_view
    rw [hshape]
  · show (window_transform p.transform w).apply 0 0 = _
    unfold window_transform Affine.apply
    rw [Prod.mk.injEq]
    constructor <;> simp <;> ring

/-- Witness for C7: a concrete raster profile and an in-bounds window. -/
theorem save_current_view_effect_witness :
    save_current_view "p/b/img.tif"
        (Profile.mk "GTiff" "float32" none 10 10 1 "EPSG:32605"
          (Affine.mk 30 0 600000 0 (-30) 2200000) 512 512)
        (SrcRaster.mk 10 10 (Affine.mk 30 0 600000 0 (-30) 2200000))
        (Window.mk 2 3 4 5) =
      ("subset-" ++ basename "p/b/img.tif",
       { Profile.mk "GTiff" "float32" none 10 10 1 "EPSG:32605"
           (Affine.mk 30 0 600000 0 (-30) 2200000) 512 512 with
         dtype := "float32"
         height := (5 : Int).toNat
         width := (4 : Int).toNat
         blockxsize := 256
         blockysize := 256
         transform := window_transform
           (Affine.mk 30 0 600000 0 (-30) 2200000) (Window.mk 2 3 4 5) }) ∧
    True := by
  refine ⟨?_, trivial⟩
  exact (save_current_view_effect "p/b/img.tif"
    (Profile.mk "GTiff" "float32" none 10 10 1 "EPSG:32605"
      (Affine.mk 30 0 600000 0 (-30) 2200000) 512 512)
    (SrcRaster.mk 10 10 (Affine.mk 30 0 600000 0 (-30) 2200000))
    (Window.mk 2 3 4 5) (by decide) (by decide) (by decide) (by decide)).1

/-- C10: when the viewer's range stream has never been set
(`x_range is None`), `get_window` falls back to the source raster's full
bounds, producing the window (0, 0, width, height) that covers the entire
source image — it does not fail. -/
theorem get_window_unset_range_full_image (yr : Option (ℚ × ℚ))
    (src : SrcRaster) (hdet : src.transform.det ≠ 0) :
    get_window none yr src =
      Window.mk 0 0 (src.width : Int) (src.height : Int) := by
  have t := src.transform
  have hul : src_index src (src_bounds src).1 (src_bounds src).2.2.2 =
      (0, 0) := by
    unfold src_index src_bounds Affine.apply
    rw [Prod.mk.injEq]
    constructor
    · rw [show src.transform.a * (0 : ℚ) + src.transform.b * 0 +
          src.transform.c = src.transform.c from by ring]
      rw [show src.transform.d * (0 : ℚ) + src.transform.e * 0 +
          src.transform.f = src.transform.f from by ring]
      rw [show src.transform.a * (src.transform.f - src.transform.f) -
          src.transform.d * (src.transform.c - src.transform.c) =
          0 from by ring]
      simp
    · rw [show src.transform.a * (0 : ℚ) + src.transform.b * 0 +
          src.transform.c = src.transform.c from by ring]
      rw [show src.transform.d * (0 : ℚ) + src.transform.e * 0 +
          src.transform.f = src.transform.f from by ring]
      rw [show src.transform.e * (src.transform.c - src.transform.c) -
          src.transform.b * (src.transform.f - src.transform.f) =
          0 from by ring]
      simp
  have hlr : src_index src (src_bounds src).2.2.1 (src_bounds src).2.1 =
      ((src.height : Int), (src.width : Int)) := by
    unfold src_index src_bounds Affine.apply
    rw [Prod.mk.injEq]
    constructor
    · rw [show src.transform.a *
          (src.transform.d * (src.width : ℚ) +
            src.transform.e * (src.height : ℚ) + src.transform.f -
            src.transform.f) -
          src.transform.d *
          (src.transform.a * (src.width : ℚ) +
            src.transform.b * (src.height : ℚ) + src.transform.c -
            src.transform.c) =
          (src.height : ℚ) * src.transform.det from by
        unfold Affine.det; ring]
      rw [mul_div_assoc, div_self hdet, mul_one]
      exact Int.floor_natCast src.height
    · rw [show src.transform.e *
          (src.transform.a * (src.width : ℚ) +
            src.transform.b * (src.height : ℚ) + src.transform.c -
            src.transform.c) -
          src.transform.b *
          (src.transform.d * (src.width : ℚ) +
            src.transform.e * (src.height : ℚ) + src.transform.f -
            src.transform.f) =
          (src.width : ℚ) * src.transform.det from by
        unfold Affine.det; ring]
      rw [mul_div_assoc, div_self hdet, mul_one]
      exact Int.floor_natCast src.width
  show Window.mk (src_index src (src_bounds src).1
      (src_bounds src).2.2.2).2 (src_index src (src_bounds src).1
      (src_bounds src).2.2.2).1 _ _ = _
  rw [hul, hlr]
  rw [Window.mk.injEq]
  refine ⟨rfl, rfl, by ring, by ring⟩

/-- Witness for C10: a concrete north-up UTM-style raster. -/
theorem get_window_unset_range_full_image_witness :
    get_window none none
        (SrcRaster.mk 5 4 (Affine.mk 30 0 600000 0 (-30) 2200000)) =
      Window.mk 0 0 ((5 : Nat) : Int) ((4 : Nat) : Int) :=
  get_window_unset_range_full_image none
    (SrcRaster.mk 5 4 (Affine.mk 30 0 600000 0 (-30) 2200000))
    (by norm_num [Affine.det])

/-- C8 counterexample: a point whose x coordinate (100) lies beyond every
grid x coordinate is selected without any boundary error — `sel_nearest`
returns the value of the nearest edge cell — and a window wider than the
raster is silently cropped by `src.read` to the raster extent (width 2
instead of the requested 5) instead of failing. -/
theorem out_of_bounds_selection_not_fatal :
    (∀ c ∈ (Dataset.mk [0] [0, 1] [0] [[[5, 6]]]).xs, c < 100) ∧
    sel_nearest (Dataset.mk [0] [0, 1] [0] [[[5, 6]]]) 100 0 = [6] ∧
    read_window_shape (SrcRaster.mk 2 1 (Affine.mk 1 0 0 0 (-1) 1))
      (Window.mk 0 0 5 1) = (1, 2) := by
  refine ⟨?_, ?_, by decide⟩
  · intro c hc
    fin_cases hc <;> norm_num
  · norm_num [sel_nearest, nearestIdx]

/-- C8 amended: out-of-bounds selections do not fail with a boundary
error.  A point selection beyond the coordinate range still returns
exactly one value per band, from the in-range cell nearest to the target;
a window extending past the raster's right edge is cropped to the raster
extent, returning truncated data of width (raster width - column offset),
strictly less than requested. -/
theorem out_of_bounds_selection_behaviour (ds : Dataset) (x y : ℚ)
    (hx : ds.xs ≠ []) (s : SrcRaster) (w : Window)
    (hc0 : 0 ≤ w.colOff) (hcW : w.colOff < (s.width : Int))
    (hover : (s.width : Int) < w.colOff + w.width) :
    (sel_nearest ds x y).length = ds.layers.length ∧
    nearestIdx x ds.xs < ds.xs.length ∧
    (∀ i, i < ds.xs.length →
      |ds.xs.getD (nearestIdx x ds.xs) 0 - x| ≤ |ds.xs.getD i 0 - x|) ∧
    ((read_window_shape s w).2 : Int) = (s.width : Int) - w.colOff ∧
    ((read_window_shape s w).2 : Int) < w.width := by
  refine ⟨by simp [sel_nearest], nearestIdx_lt_length x ds.xs hx,
    nearestIdx_min x ds.xs, ?_, ?_⟩
  · unfold read_window_shape
    simp only []
    omega
  · unfold read_window_shape
    simp only []
    omega

/-- Witness for C8's amended theorem: the concrete out-of-range point and
over-wide window of the counterexample. -/
theorem out_of_bounds_selection_behaviour_witness :
    (sel_nearest (Dataset.mk [0] [0, 1] [0] [[[5, 6]]]) 100 0).length =
      (Dataset.mk [0] [0, 1] [0] [[[5, 6]]]).layers.length ∧
    nearestIdx 100 (Dataset.mk [0] [0, 1] [0] [[[5, 6]]]).xs <
      (Dataset.mk [0] [0, 1] [0] [[[5, 6]]]).xs.length ∧
    (∀ i, i < (Dataset.mk [0] [0, 1] [0] [[[5, 6]]]).xs.length →
      |(Dataset.mk [0] [0, 1] [0] [[[5, 6]]]).xs.getD
          (nearestIdx 100 (Dataset.mk [0] [0, 1] [0] [[[5, 6]]]).xs) 0 -
        100| ≤
      |(Dataset.mk [0] [0, 1] [0] [[[5, 6]]]).xs.getD i 0 - 100|) ∧
    ((read_window_shape (SrcRaster.mk 2 1 (Affine.mk 1 0 0 0 (-1) 1))
        (Window.mk 0 0 5 1)).2 : Int) = ((2 : Nat) : Int) - 0 ∧
    ((read_window_shape (SrcRaster.mk 2 1 (Affine.mk 1 0 0 0 (-1) 1))
        (Window.mk 0 0 5 1)).2 : Int) < 5 :=
  out_of_bounds_selection_behaviour
    (Dataset.mk [0] [0, 1] [0] [[[5, 6]]]) 100 0 (by decide)
    (SrcRaster.mk 2 1 (Affine.mk 1 0 0 0 (-1) 1)) (Window.mk 0 0 5 1)
    (by decide) (by decide) (by decide)

end GRFN
